import Mathlib

/-!
Shallow embedding of the wasi-types crate (src/lib.rs): WASI value types,
the Rights capability bitmask, the ErrNo error taxonomy with its host-error
translation, the event/subscription model, and Timestamp arithmetic.

Machine integers are embedded as Nat; u64 overflow in Timestamp.from_sec is
made explicit with a reduction modulo 2 ^ 64. Bitmask types generated by the
bitflags macro are embedded as structures wrapping the raw bits, with
from_bits rejecting any bit outside the union of the declared constants,
exactly as the macro expands for the constants declared in the source.
-/

/-- Identifiers for clocks (repr u32 enum in the source). -/
inductive ClockId where
  | RealTime
  | Monotonic
  | ProcessCpuTime
  | ThreadCpuTime
  deriving DecidableEq

/-- Timestamp in nanoseconds: a newtype over u64. -/
structure Timestamp where
  nanos : Nat
  deriving DecidableEq

/-- Timestamp::from_nanos: wraps the raw u64 nanosecond count. -/
def Timestamp.from_nanos (nanos : Nat) : Timestamp :=
  Timestamp.mk nanos

/-- Timestamp::from_sec: sec * 1_000_000_000 as an unchecked u64 product,
so the value wraps modulo 2 ^ 64 when the mathematical product overflows. -/
def Timestamp.from_sec (sec : Nat) : Timestamp :=
  Timestamp.from_nanos (sec * 1000000000 % 2 ^ 64)

/-- Timestamp::as_nanos: reads back the raw nanosecond count. -/
def Timestamp.as_nanos (t : Timestamp) : Nat :=
  t.nanos

/-- The Rights capability bitmask: a newtype over the raw u64 bits, as the
bitflags macro expands the declaration in the source. -/
structure Rights where
  bits : Nat
  deriving DecidableEq

def Rights.FD_DATASYNC : Rights := Rights.mk (1 <<< 0)
def Rights.FD_READ : Rights := Rights.mk (1 <<< 1)
def Rights.FD_SEEK : Rights := Rights.mk (1 <<< 2)
def Rights.FD_FDSTAT_SET_FLAGS : Rights := Rights.mk (1 <<< 3)
def Rights.FD_SYNC : Rights := Rights.mk (1 <<< 4)
def Rights.FD_TELL : Rights := Rights.mk (1 <<< 5)
def Rights.FD_WRITE : Rights := Rights.mk (1 <<< 6)
def Rights.FD_ADVISE : Rights := Rights.mk (1 <<< 7)
def Rights.FD_ALLOCATE : Rights := Rights.mk (1 <<< 8)
def Rights.PATH_CREATE_DIRECTORY : Rights := Rights.mk (1 <<< 9)
def Rights.PATH_CREATE_FILE : Rights := Rights.mk (1 <<< 10)
def Rights.PATH_LINK_SOURCE : Rights := Rights.mk (1 <<< 11)
def Rights.PATH_LINK_TARGET : Rights := Rights.mk (1 <<< 12)
def Rights.PATH_OPEN : Rights := Rights.mk (1 <<< 13)
def Rights.FD_READDIR : Rights := Rights.mk (1 <<< 14)
def Rights.PATH_READLINK : Rights := Rights.mk (1 <<< 15)
def Rights.PATH_RENAME_SOURCE : Rights := Rights.mk (1 <<< 16)
def Rights.PATH_RENAME_TARGET : Rights := Rights.mk (1 <<< 17)
def Rights.PATH_FILESTAT_GET : Rights := Rights.mk (1 <<< 18)
def Rights.PATH_FILESTAT_SET_SIZE : Rights := Rights.mk (1 <<< 19)
def Rights.PATH_FILESTAT_SET_TIMES : Rights := Rights.mk (1 <<< 20)
def Rights.FD_FILESTAT_GET : Rights := Rights.mk (1 <<< 21)
def Rights.FD_FILESTAT_SET_SIZE : Rights := Rights.mk (1 <<< 22)
def Rights.FD_FILESTAT_SET_TIMES : Rights := Rights.mk (1 <<< 23)
def Rights.PATH_SYMLINK : Rights := Rights.mk (1 <<< 24)
def Rights.PATH_REMOVE_DIRECTORY : Rights := Rights.mk (1 <<< 25)
def Rights.PATH_UNLINK_FILE : Rights := Rights.mk (1 <<< 26)
def Rights.POLL_FD_READWRITE : Rights := Rights.mk (1 <<< 27)
def Rights.SOCK_SHUTDOWN : Rights := Rights.mk (1 <<< 28)

/-- The union of every flag constant declared in the source: the bits of
Rights::all() as computed by the bitflags macro. -/
def Rights.allBits : Nat :=
  Rights.FD_DATASYNC.bits ||| Rights.FD_READ.bits ||| Rights.FD_SEEK.bits |||
  Rights.FD_FDSTAT_SET_FLAGS.bits ||| Rights.FD_SYNC.bits ||| Rights.FD_TELL.bits |||
  Rights.FD_WRITE.bits ||| Rights.FD_ADVISE.bits ||| Rights.FD_ALLOCATE.bits |||
  Rights.PATH_CREATE_DIRECTORY.bits ||| Rights.PATH_CREATE_FILE.bits |||
  Rights.PATH_LINK_SOURCE.bits ||| Rights.PATH_LINK_TARGET.bits |||
  Rights.PATH_OPEN.bits ||| Rights.FD_READDIR.bits ||| Rights.PATH_READLINK.bits |||
  Rights.PATH_RENAME_SOURCE.bits ||| Rights.PATH_RENAME_TARGET.bits |||
  Rights.PATH_FILESTAT_GET.bits ||| Rights.PATH_FILESTAT_SET_SIZE.bits |||
  Rights.PATH_FILESTAT_SET_TIMES.bits ||| Rights.FD_FILESTAT_GET.bits |||
  Rights.FD_FILESTAT_SET_SIZE.bits ||| Rights.FD_FILESTAT_SET_TIMES.bits |||
  Rights.PATH_SYMLINK.bits ||| Rights.PATH_REMOVE_DIRECTORY.bits |||
  Rights.PATH_UNLINK_FILE.bits ||| Rights.POLL_FD_READWRITE.bits |||
  Rights.SOCK_SHUTDOWN.bits

/-- Rights::from_bits, as the bitflags macro defines it: succeeds exactly
when no bit outside the declared flags is set; the complement of all() is
taken inside u64. -/
def Rights.from_bits (x : Nat) : Option Rights :=
  if x &&& ((2 ^ 64 - 1) ^^^ Rights.allBits) = 0 then some (Rights.mk x) else none

/-- TryFrom u64 for Rights: from_bits(code).ok_or(()). -/
def Rights.try_from (code : Nat) : Except Unit Rights :=
  match Rights.from_bits code with
  | some r => Except.ok r
  | none => Except.error ()

/-- From Rights for u64: the raw bits, always total and lossless. -/
def Rights.to_bits (r : Rights) : Nat :=
  r.bits

/-- Rights::empty() from the bitflags macro: the mask with no bit set. -/
def Rights.empty : Rights :=
  Rights.mk 0

/-- Rights union (bitwise or), as the bitflags macro defines it. -/
def Rights.union (a b : Rights) : Rights :=
  Rights.mk (a.bits ||| b.bits)

/-- Rights intersection (bitwise and), as the bitflags macro defines it. -/
def Rights.intersection (a b : Rights) : Rights :=
  Rights.mk (a.bits &&& b.bits)

/-- Modelled from the spec: the subset test on Rights, absent as a named
method from the source; the spec defines a implies b as a and b == a. -/
def Rights.implies (a b : Rights) : Bool :=
  a.bits &&& b.bits == a.bits

/-- Error codes returned by functions: repr u16 enum, discriminants in
declaration order starting at Success = 0. -/
inductive ErrNo where
  | Success
  | TooBig
  | Access
  | AddrInUse
  | AddrNotAvail
  | AfNoSupport
  | Again
  | Already
  | BadF
  | BadMsg
  | Busy
  | Canceled
  | Child
  | ConnAborted
  | ConnRefused
  | ConnReset
  | Deadlk
  | DestAddrReq
  | Domain
  | DQuot
  | Exist
  | Fault
  | FBig
  | HostUnreach
  | IdRm
  | IlSeq
  | InProgress
  | Intr
  | Inval
  | Io
  | IsConn
  | IsDir
  | Loop
  | MFile
  | MLink
  | MsgSize
  | Multihop
  | NameTooLong
  | NetDown
  | NetReset
  | NetUnreach
  | NFile
  | NoBufS
  | NoDev
  | NoEnt
  | NoExec
  | NoLock
  | NoLink
  | NoMem
  | NoMsg
  | NoProtoOpt
  | NoSpace
  | NoSys
  | NotConn
  | NotDir
  | NotEmpty
  | NotRecoverable
  | NotSock
  | NotSup
  | NoTty
  | NxIo
  | Overflow
  | OwnerDead
  | Perm
  | Pipe
  | Proto
  | ProtoNoSupport
  | ProtoType
  | Range
  | RoFs
  | SPipe
  | Srch
  | Stale
  | TimedOut
  | TxtBsy
  | XDev
  | NotCapable
  deriving DecidableEq

/-- From ErrNo for u16: the repr u16 discriminant (declaration order). -/
def ErrNo.toU16 : ErrNo → Nat
  | .Success => 0
  | .TooBig => 1
  | .Access => 2
  | .AddrInUse => 3
  | .AddrNotAvail => 4
  | .AfNoSupport => 5
  | .Again => 6
  | .Already => 7
  | .BadF => 8
  | .BadMsg => 9
  | .Busy => 10
  | .Canceled => 11
  | .Child => 12
  | .ConnAborted => 13
  | .ConnRefused => 14
  | .ConnReset => 15
  | .Deadlk => 16
  | .DestAddrReq => 17
  | .Domain => 18
  | .DQuot => 19
  | .Exist => 20
  | .Fault => 21
  | .FBig => 22
  | .HostUnreach => 23
  | .IdRm => 24
  | .IlSeq => 25
  | .InProgress => 26
  | .Intr => 27
  | .Inval => 28
  | .Io => 29
  | .IsConn => 30
  | .IsDir => 31
  | .Loop => 32
  | .MFile => 33
  | .MLink => 34
  | .MsgSize => 35
  | .Multihop => 36
  | .NameTooLong => 37
  | .NetDown => 38
  | .NetReset => 39
  | .NetUnreach => 40
  | .NFile => 41
  | .NoBufS => 42
  | .NoDev => 43
  | .NoEnt => 44
  | .NoExec => 45
  | .NoLock => 46
  | .NoLink => 47
  | .NoMem => 48
  | .NoMsg => 49
  | .NoProtoOpt => 50
  | .NoSpace => 51
  | .NoSys => 52
  | .NotConn => 53
  | .NotDir => 54
  | .NotEmpty => 55
  | .NotRecoverable => 56
  | .NotSock => 57
  | .NotSup => 58
  | .NoTty => 59
  | .NxIo => 60
  | .Overflow => 61
  | .OwnerDead => 62
  | .Perm => 63
  | .Pipe => 64
  | .Proto => 65
  | .ProtoNoSupport => 66
  | .ProtoType => 67
  | .Range => 68
  | .RoFs => 69
  | .SPipe => 70
  | .Srch => 71
  | .Stale => 72
  | .TimedOut => 73
  | .TxtBsy => 74
  | .XDev => 75
  | .NotCapable => 76

/-- Partial inverse of the u16 discriminant encoding, used to establish
injectivity of the encoding. -/
def ErrNo.ofU16 : Nat → Option ErrNo
  | 0 => some .Success
  | 1 => some .TooBig
  | 2 => some .Access
  | 3 => some .AddrInUse
  | 4 => some .AddrNotAvail
  | 5 => some .AfNoSupport
  | 6 => some .Again
  | 7 => some .Already
  | 8 => some .BadF
  | 9 => some .BadMsg
  | 10 => some .Busy
  | 11 => some .Canceled
  | 12 => some .Child
  | 13 => some .ConnAborted
  | 14 => some .ConnRefused
  | 15 => some .ConnReset
  | 16 => some .Deadlk
  | 17 => some .DestAddrReq
  | 18 => some .Domain
  | 19 => some .DQuot
  | 20 => some .Exist
  | 21 => some .Fault
  | 22 => some .FBig
  | 23 => some .HostUnreach
  | 24 => some .IdRm
  | 25 => some .IlSeq
  | 26 => some .InProgress
  | 27 => some .Intr
  | 28 => some .Inval
  | 29 => some .Io
  | 30 => some .IsConn
  | 31 => some .IsDir
  | 32 => some .Loop
  | 33 => some .MFile
  | 34 => some .MLink
  | 35 => some .MsgSize
  | 36 => some .Multihop
  | 37 => some .NameTooLong
  | 38 => some .NetDown
  | 39 => some .NetReset
  | 40 => some .NetUnreach
  | 41 => some .NFile
  | 42 => some .NoBufS
  | 43 => some .NoDev
  | 44 => some .NoEnt
  | 45 => some .NoExec
  | 46 => some .NoLock
  | 47 => some .NoLink
  | 48 => some .NoMem
  | 49 => some .NoMsg
  | 50 => some .NoProtoOpt
  | 51 => some .NoSpace
  | 52 => some .NoSys
  | 53 => some .NotConn
  | 54 => some .NotDir
  | 55 => some .NotEmpty
  | 56 => some .NotRecoverable
  | 57 => some .NotSock
  | 58 => some .NotSup
  | 59 => some .NoTty
  | 60 => some .NxIo
  | 61 => some .Overflow
  | 62 => some .OwnerDead
  | 63 => some .Perm
  | 64 => some .Pipe
  | 65 => some .Proto
  | 66 => some .ProtoNoSupport
  | 67 => some .ProtoType
  | 68 => some .Range
  | 69 => some .RoFs
  | 70 => some .SPipe
  | 71 => some .Srch
  | 72 => some .Stale
  | 73 => some .TimedOut
  | 74 => some .TxtBsy
  | 75 => some .XDev
  | 76 => some .NotCapable
  | _ => none

/-- The host platform error-kind enumeration (std::io::ErrorKind) as
enumerated by the translation match in the source. -/
inductive ErrorKind where
  | NotFound
  | PermissionDenied
  | ConnectionRefused
  | ConnectionReset
  | ConnectionAborted
  | NotConnected
  | AddrInUse
  | AddrNotAvailable
  | BrokenPipe
  | AlreadyExists
  | WouldBlock
  | InvalidInput
  | InvalidData
  | TimedOut
  | Interrupted
  | WriteZero
  | Other
  | UnexpectedEof
  deriving DecidableEq

/-- From std::io::Error for ErrNo: the translation match over the host
error kind, arm by arm from the source; the final arm collapses WriteZero,
Other, UnexpectedEof and every remaining kind to Io. -/
def errNoOfIoError : ErrorKind → ErrNo
  | .NotFound => .NoEnt
  | .PermissionDenied => .Access
  | .ConnectionRefused => .ConnRefused
  | .ConnectionReset => .ConnReset
  | .ConnectionAborted => .ConnAborted
  | .NotConnected => .NotConn
  | .AddrInUse => .AddrInUse
  | .AddrNotAvailable => .AddrNotAvail
  | .BrokenPipe => .Pipe
  | .AlreadyExists => .Exist
  | .WouldBlock => .Again
  | .InvalidInput => .Inval
  | .InvalidData => .Inval
  | .TimedOut => .TimedOut
  | .Interrupted => .Intr
  | .WriteZero => .Io
  | .Other => .Io
  | .UnexpectedEof => .Io

/-- The type of a file descriptor or file: repr u8 enum, discriminants 0..7. -/
inductive FileType where
  | Unknown
  | BlockDevice
  | CharacterDevice
  | Directory
  | RegularFile
  | SocketDgram
  | SocketStream
  | SymbolicLink
  deriving DecidableEq

/-- From FileType for u8: the repr u8 discriminant. -/
def FileType.toU8 : FileType → Nat
  | .Unknown => 0
  | .BlockDevice => 1
  | .CharacterDevice => 2
  | .Directory => 3
  | .RegularFile => 4
  | .SocketDgram => 5
  | .SocketStream => 6
  | .SymbolicLink => 7

/-- Modelled from the spec: the fallible u8 to FileType decode generated by
the numeric-enum derive on FileType, which is not expanded in the source;
the spec requires a fallible decode from the raw integer that rejects any
value outside the declared variant range as a distinct error outcome. -/
def FileType.try_from : Nat → Option FileType
  | 0 => some .Unknown
  | 1 => some .BlockDevice
  | 2 => some .CharacterDevice
  | 3 => some .Directory
  | 4 => some .RegularFile
  | 5 => some .SocketDgram
  | 6 => some .SocketStream
  | 7 => some .SymbolicLink
  | _ => none

/-- Event type: repr u8 enum over Clock, FdRead, FdWrite. -/
inductive EventType where
  | Clock
  | FdRead
  | FdWrite
  deriving DecidableEq

/-- Flags reported with a descriptor readiness event: repr u16 enum. -/
inductive EventRwFlags where
  | NoFlags
  | Hangup
  deriving DecidableEq

/-- The state of the file descriptor subscribed to with FdRead or FdWrite. -/
structure EventFdState where
  file_size : Nat
  flags : EventRwFlags
  deriving DecidableEq

/-- An event produced for a subscription. -/
structure Event where
  user_data : Nat
  error : ErrNo
  ty : EventType
  fd_state : Option EventFdState
  deriving DecidableEq

/-- The clock payload of a clock subscription. -/
structure SubscriptionClock where
  clock_id : ClockId
  timeout : Timestamp
  precision : Timestamp
  flags : Nat
  deriving DecidableEq

/-- The descriptor payload of a read/write subscription. -/
structure SubscriptionFdReadwrite where
  fd : Nat
  deriving DecidableEq

/-- The tagged union of subscription payloads. -/
inductive SubscriptionUnion where
  | Clock (c : SubscriptionClock)
  | FdRead (rw : SubscriptionFdReadwrite)
  | FdWrite (rw : SubscriptionFdReadwrite)
  deriving DecidableEq

/-- A subscription: opaque user data plus the tagged payload. -/
structure Subscription where
  userdata : Nat
  u : SubscriptionUnion
  deriving DecidableEq

/-- Modelled from the spec: the external poller produces, for each
subscription, an event whose ty matches the subscription tag, echoing the
user data, with fd_state attached exactly for the FdRead and FdWrite cases
and always absent for Clock. The poller itself is outside the source. -/
def produceEvent (s : Subscription) (err : ErrNo) (st : EventFdState) : Event :=
  match s.u with
  | .Clock _ => Event.mk s.userdata err EventType.Clock none
  | .FdRead _ => Event.mk s.userdata err EventType.FdRead (some st)
  | .FdWrite _ => Event.mk s.userdata err EventType.FdWrite (some st)

/-- Socket send flags: the bitflags declaration has a single constant
MUST_BE_ZERO whose value is 0, so all() has no bit set. -/
structure SiFlags where
  bits : Nat
  deriving DecidableEq

def SiFlags.MUST_BE_ZERO : SiFlags := SiFlags.mk 0

/-- The union of the declared SiFlags constants: the bits of all(). -/
def SiFlags.allBits : Nat :=
  SiFlags.MUST_BE_ZERO.bits

/-- SiFlags::from_bits as the bitflags macro defines it over u16. -/
def SiFlags.from_bits (x : Nat) : Option SiFlags :=
  if x &&& ((2 ^ 16 - 1) ^^^ SiFlags.allBits) = 0 then some (SiFlags.mk x) else none

/-- TryFrom u16 for SiFlags: from_bits(code).ok_or(()). -/
def SiFlags.try_from (code : Nat) : Except Unit SiFlags :=
  match SiFlags.from_bits code with
  | some s => Except.ok s
  | none => Except.error ()

/-- C8: Timestamp::from_sec(1).as_nanos() equals 1_000_000_000: one second
converts to exactly one billion nanoseconds. -/
theorem timestamp_one_sec_nanos : (Timestamp.from_sec 1).as_nanos = 1000000000 := rfl

theorem rights_allBits_eq : Rights.allBits = 2 ^ 29 - 1 := by decide

theorem nat_and_or_self (x y : Nat) : x &&& (x ||| y) = x := by
  apply Nat.eq_of_testBit_eq
  intro i
  rw [Nat.testBit_and, Nat.testBit_or]
  cases x.testBit i <;> simp

theorem nat_and_and_self (x y : Nat) : x &&& y &&& x = x &&& y := by
  apply Nat.eq_of_testBit_eq
  intro i
  simp only [Nat.testBit_and]
  cases x.testBit i <;> cases y.testBit i <;> simp

/-- C1 counterexample: the raw u64 value 2 ^ 28 has bit 28 set, yet it
decodes successfully, because bit 28 is the declared SOCK_SHUTDOWN flag;
the reserved region starts at bit 29, not bit 28. -/
theorem rights_bit28_decodes :
    Rights.from_bits (2 ^ 28) = some Rights.SOCK_SHUTDOWN ∧
    Rights.try_from (2 ^ 28) = Except.ok Rights.SOCK_SHUTDOWN :=
  ⟨by decide, rfl⟩

/-- C1 (amended): for every raw u64 value with any bit at position 29 or
above set, Rights decoding fails: from_bits returns none and try_from
returns an error. -/
theorem rights_reserved_bits_rejected (x : Nat) (hx : x < 2 ^ 64)
    (h : ∃ i, 29 ≤ i ∧ x.testBit i = true) :
    Rights.from_bits x = none ∧ Rights.try_from x = Except.error () := by
  obtain ⟨i, hi, hbit⟩ := h
  have hi64 : i < 64 := by
    by_contra hge
    have hlt : x < 2 ^ i :=
      lt_of_lt_of_le hx (Nat.pow_le_pow_right (by omega) (by omega))
    rw [Nat.testBit_lt_two_pow hlt] at hbit
    exact Bool.false_ne_true hbit
  have hmaskbit : ((2 ^ 64 - 1) ^^^ Rights.allBits).testBit i = true := by
    rw [rights_allBits_eq, Nat.testBit_xor, Nat.testBit_two_pow_sub_one,
        Nat.testBit_two_pow_sub_one]
    have h1 : decide (i < 64) = true := by simp [hi64]
    have h2 : decide (i < 29) = false := by simp; omega
    rw [h1, h2]
    rfl
  have hne : x &&& ((2 ^ 64 - 1) ^^^ Rights.allBits) ≠ 0 := by
    intro h0
    have hb : (x &&& ((2 ^ 64 - 1) ^^^ Rights.allBits)).testBit i = true := by
      rw [Nat.testBit_and, hbit, hmaskbit]
      rfl
    rw [h0, Nat.zero_testBit] at hb
    exact Bool.false_ne_true hb
  have hfb : Rights.from_bits x = none := by
    unfold Rights.from_bits
    rw [if_neg hne]
  refine ⟨hfb, ?_⟩
  unfold Rights.try_from
  rw [hfb]

/-- C1 amended witness: the concrete value 2 ^ 29 (bit 29 set) is rejected. -/
theorem rights_reserved_bits_rejected_witness :
    Rights.from_bits (2 ^ 29) = none ∧ Rights.try_from (2 ^ 29) = Except.error () :=
  rights_reserved_bits_rejected (2 ^ 29) (by decide) ⟨29, by decide, by decide⟩

/-- C3: for every raw u64 value with no bit at position 28 or above set,
decoding succeeds and round-trips: from_bits returns some r with
r.to_bits equal to the input. -/
theorem rights_from_bits_roundtrip (x : Nat)
    (h : ∀ i, 28 ≤ i → x.testBit i = false) :
    ∃ r, Rights.from_bits x = some r ∧ r.to_bits = x := by
  have hcond : x &&& ((2 ^ 64 - 1) ^^^ Rights.allBits) = 0 := by
    apply Nat.eq_of_testBit_eq
    intro i
    rw [Nat.zero_testBit, Nat.testBit_and, rights_allBits_eq, Nat.testBit_xor,
        Nat.testBit_two_pow_sub_one, Nat.testBit_two_pow_sub_one]
    by_cases hi : i < 29
    · have h64 : decide (i < 64) = true := by simp; omega
      have h29 : decide (i < 29) = true := by simp [hi]
      rw [h64, h29]
      cases x.testBit i <;> rfl
    · rw [h i (by omega)]
      rfl
  refine ⟨Rights.mk x, ?_, rfl⟩
  unfold Rights.from_bits
  rw [if_pos hcond]

/-- C3 witness: the concrete value 2 ^ 28 - 1 (all defined bits below 28)
decodes and round-trips. -/
theorem rights_from_bits_roundtrip_witness :
    ∃ r, Rights.from_bits (2 ^ 28 - 1) = some r ∧ r.to_bits = 2 ^ 28 - 1 :=
  rights_from_bits_roundtrip (2 ^ 28 - 1)
    (fun i hi => Nat.testBit_lt_two_pow
      (lt_of_lt_of_le (by decide) (Nat.pow_le_pow_right (by decide) hi)))

/-- C4: the Rights set algebra is a boolean lattice: union and intersection
are associative, commutative and idempotent; implies is reflexive; a
implies empty exactly when a is empty; a implies its union with anything;
and an intersection implies each of its arguments. -/
theorem rights_lattice_laws (a b c : Rights) :
    (a.union (b.union c) = (a.union b).union c) ∧
    (a.union b = b.union a) ∧
    (a.union a = a) ∧
    (a.intersection (b.intersection c) = (a.intersection b).intersection c) ∧
    (a.intersection b = b.intersection a) ∧
    (a.intersection a = a) ∧
    (a.implies a = true) ∧
    ((a.implies Rights.empty = true) ↔ a = Rights.empty) ∧
    (a.implies (a.union b) = true) ∧
    ((a.intersection b).implies a = true) := by
  obtain ⟨x⟩ := a
  obtain ⟨y⟩ := b
  obtain ⟨z⟩ := c
  refine ⟨?_, ?_, ?_, ?_, ?_, ?_, ?_, ?_, ?_, ?_⟩
  · simp [Rights.union, Nat.or_assoc]
  · simp [Rights.union, Nat.or_comm]
  · simp [Rights.union]
  · simp [Rights.intersection, Nat.and_assoc]
  · simp [Rights.intersection, Nat.and_comm]
  · simp [Rights.intersection]
  · simp [Rights.implies]
  · simp only [Rights.implies, Rights.empty, Nat.and_zero, beq_iff_eq, Rights.mk.injEq]
    exact eq_comm
  · simp [Rights.implies, Rights.union, nat_and_or_self]
  · simp [Rights.implies, Rights.intersection, nat_and_and_self]

/-- C2: the host-error translation is total over the host error-kind
enumeration (it is a Lean function on all of ErrorKind); it maps NotFound
to NoEnt, WouldBlock to Again, BrokenPipe to Pipe, and the unrecognized
kinds (WriteZero, Other, UnexpectedEof) to Io; and it never produces
NotCapable for any host error kind. -/
theorem io_error_translation_total :
    errNoOfIoError ErrorKind.NotFound = ErrNo.NoEnt ∧
    errNoOfIoError ErrorKind.WouldBlock = ErrNo.Again ∧
    errNoOfIoError ErrorKind.BrokenPipe = ErrNo.Pipe ∧
    errNoOfIoError ErrorKind.WriteZero = ErrNo.Io ∧
    errNoOfIoError ErrorKind.Other = ErrNo.Io ∧
    errNoOfIoError ErrorKind.UnexpectedEof = ErrNo.Io ∧
    (∀ k : ErrorKind, errNoOfIoError k ≠ ErrNo.NotCapable) := by
  refine ⟨rfl, rfl, rfl, rfl, rfl, rfl, ?_⟩
  intro k
  cases k <;> decide

/-- C2 witness: the translation applied at the concrete kind Other is Io,
hence in particular not NotCapable. -/
theorem io_error_translation_total_witness :
    errNoOfIoError ErrorKind.Other ≠ ErrNo.NotCapable :=
  io_error_translation_total.2.2.2.2.2.2 ErrorKind.Other

/-- C5: decoding FileType from the raw value 8 (one past SymbolicLink = 7)
fails with a distinct error outcome (none), and the fallible decode rejects
every out-of-range raw value the same way. -/
theorem filetype_decode_rejects_out_of_range (x : Nat) (hx : 8 ≤ x) :
    FileType.try_from 8 = none ∧ FileType.try_from x = none := by
  refine ⟨rfl, ?_⟩
  obtain ⟨n, rfl⟩ : ∃ n, x = n + 8 := ⟨x - 8, by omega⟩
  rfl

/-- C5 witness: the concrete out-of-range raw values 8 and 255 are both
rejected. -/
theorem filetype_decode_rejects_witness :
    FileType.try_from 8 = none ∧ FileType.try_from 255 = none :=
  filetype_decode_rejects_out_of_range 255 (by decide)

theorem errno_ofU16_toU16 (e : ErrNo) : ErrNo.ofU16 (ErrNo.toU16 e) = some e := by
  cases e <;> rfl

/-- C6: ErrNo::Success encodes to the raw u16 value 0, only Success encodes
to 0, and the u16 discriminants of all ErrNo variants are pairwise distinct
(the encoding is injective). -/
theorem errno_discriminants_injective :
    ErrNo.toU16 ErrNo.Success = 0 ∧
    (∀ e : ErrNo, ErrNo.toU16 e = 0 → e = ErrNo.Success) ∧
    (∀ a b : ErrNo, ErrNo.toU16 a = ErrNo.toU16 b → a = b) := by
  refine ⟨rfl, ?_, ?_⟩
  · intro e he
    have h1 := errno_ofU16_toU16 e
    rw [he] at h1
    exact (Option.some.inj h1).symm
  · intro a b hab
    have h1 := errno_ofU16_toU16 a
    rw [hab, errno_ofU16_toU16 b] at h1
    exact (Option.some.inj h1).symm

/-- C6 witness: the injectivity and zero-uniqueness parts applied at
concrete variants. -/
theorem errno_discriminants_injective_witness :
    ErrNo.Success = ErrNo.Success ∧ ErrNo.NotCapable = ErrNo.NotCapable :=
  ⟨errno_discriminants_injective.2.1 ErrNo.Success rfl,
   errno_discriminants_injective.2.2 ErrNo.NotCapable ErrNo.NotCapable rfl⟩

/-- C7: an event produced for a subscription carries fd_state exactly when
its type is FdRead or FdWrite, and carries none when its type is Clock. -/
theorem event_fd_state_present_iff (s : Subscription) (err : ErrNo) (st : EventFdState) :
    ((produceEvent s err st).fd_state.isSome = true ↔
      ((produceEvent s err st).ty = EventType.FdRead ∨
       (produceEvent s err st).ty = EventType.FdWrite)) ∧
    ((produceEvent s err st).ty = EventType.Clock →
      (produceEvent s err st).fd_state = none) := by
  obtain ⟨ud, u⟩ := s
  cases u <;> simp [produceEvent]

/-- C7 witness: a concrete clock subscription produces an event with no
fd_state, and a concrete read subscription produces one with fd_state. -/
theorem event_fd_state_present_iff_witness :
    (produceEvent
      (Subscription.mk 7 (SubscriptionUnion.Clock
        (SubscriptionClock.mk ClockId.Monotonic (Timestamp.mk 0) (Timestamp.mk 0) 0)))
      ErrNo.Success (EventFdState.mk 0 EventRwFlags.NoFlags)).fd_state = none :=
  (event_fd_state_present_iff
    (Subscription.mk 7 (SubscriptionUnion.Clock
      (SubscriptionClock.mk ClockId.Monotonic (Timestamp.mk 0) (Timestamp.mk 0) 0)))
    ErrNo.Success (EventFdState.mk 0 EventRwFlags.NoFlags)).2 rfl

/-- C9: SiFlags declares no non-zero flag bit (MUST_BE_ZERO is 0), so for
every raw u16 the decode succeeds exactly on 0, and a decoded SiFlags value
always has raw bits 0. -/
theorem siflags_only_zero (x : Nat) (hx : x < 2 ^ 16) :
    SiFlags.MUST_BE_ZERO.bits = 0 ∧
    ((∃ s, SiFlags.from_bits x = some s ∧ s.bits = 0) ↔ x = 0) ∧
    ((SiFlags.try_from x).isOk = true ↔ x = 0) := by
  have hmask : x &&& ((2 ^ 16 - 1) ^^^ SiFlags.allBits) = x := by
    have h0 : SiFlags.allBits = 0 := rfl
    rw [h0, Nat.xor_zero]
    exact Nat.and_pow_two_sub_one_of_lt_two_pow hx
  have hfb : SiFlags.from_bits x = if x = 0 then some (SiFlags.mk x) else none := by
    unfold SiFlags.from_bits
    rw [hmask]
  by_cases hx0 : x = 0
  · subst hx0
    rw [if_pos rfl] at hfb
    refine ⟨rfl, ?_, ?_⟩
    · exact ⟨fun _ => rfl, fun _ => ⟨SiFlags.mk 0, hfb, rfl⟩⟩
    · refine ⟨fun _ => rfl, fun _ => ?_⟩
      unfold SiFlags.try_from
      rw [hfb]
      rfl
  · rw [if_neg hx0] at hfb
    refine ⟨rfl, ?_, ?_⟩
    · constructor
      · rintro ⟨s, hs, _⟩
        rw [hfb] at hs
        cases hs
      · intro h
        exact absurd h hx0
    · constructor
      · intro h
        unfold SiFlags.try_from at h
        rw [hfb] at h
        cases h
      · intro h
        exact absurd h hx0

/-- C9 witness: 0 decodes (isOk) and the concrete nonzero value 1 does not. -/
theorem siflags_only_zero_witness :
    (SiFlags.try_from 0).isOk = true ∧ ((SiFlags.try_from 1).isOk = true → False) :=
  ⟨(siflags_only_zero 0 (by decide)).2.2.mpr rfl,
   fun h => Nat.one_ne_zero ((siflags_only_zero 1 (by decide)).2.2.mp h)⟩

/-- C10: from_sec computes sec * 1_000_000_000 with unchecked u64
multiplication: the stored value is the product reduced modulo 2 ^ 64, and
it equals the mathematical nanosecond count exactly when sec is at most
18_446_744_073. -/
theorem from_sec_wraps_modulo (sec : Nat) :
    (Timestamp.from_sec sec).as_nanos = sec * 1000000000 % 2 ^ 64 ∧
    ((Timestamp.from_sec sec).as_nanos = sec * 1000000000 ↔ sec ≤ 18446744073) := by
  have e64 : (2 : Nat) ^ 64 = 18446744073709551616 := by norm_num
  refine ⟨rfl, ?_⟩
  constructor
  · intro heq
    have heqn : sec * 1000000000 % 2 ^ 64 = sec * 1000000000 := heq
    by_contra hgt
    push_neg at hgt
    have h1 : 18446744074 * 1000000000 ≤ sec * 1000000000 :=
      Nat.mul_le_mul_right 1000000000 (by omega)
    have h2 : sec * 1000000000 % 2 ^ 64 < 2 ^ 64 :=
      Nat.mod_lt _ (by norm_num)
    rw [e64] at heqn h2
    omega
  · intro hle
    have hlt : sec * 1000000000 < 2 ^ 64 := by
      have h1 : sec * 1000000000 ≤ 18446744073 * 1000000000 :=
        Nat.mul_le_mul_right 1000000000 hle
      rw [e64]
      omega
    show sec * 1000000000 % 2 ^ 64 = sec * 1000000000
    exact Nat.mod_eq_of_lt hlt
